import Mathlib

/-!
# Verification of the jam-detection / recovery loop of `generate_annotated_dataset.py`

This file gives a shallow embedding of the capture loop of
`Generator.generate_images` (src/generate_annotated_dataset.py, lines 98-133)
together with the helpers `unjam_traffic` and `get_metadata` from src/utils.py,
and proves the testable properties stated in the specification about it.

Positions are modelled as triples of rationals; the comparison
`distance.euclidean(last_pos, pos) < self.jam_dist` is embedded without square
roots as `0 < jam_dist ∧ distSq < jam_dist * jam_dist`, which is proved
equivalent to the real square-root comparison (see the claim about the
sentinel origin).  Per-iteration external effects that the claims talk about
(file writes per frame index, ego teleports) are recorded as event lists in
the state.
-/

/-- A 3-d position, as polled from `ego.state['pos']`. -/
abbrev Pos := ℚ × ℚ × ℚ

/-- Squared Euclidean distance between two positions. -/
def distSq (p q : Pos) : ℚ :=
  (q.1 - p.1) ^ 2 + (q.2.1 - p.2.1) ^ 2 + (q.2.2 - p.2.2) ^ 2

/-- Embedding of `distance.euclidean(last_pos, pos) < self.jam_dist`
(line 116-117): since the Euclidean distance is nonnegative, the float
comparison holds iff `jam_dist` is positive and the squared distance is
below `jam_dist²`. -/
def isStalled (jam_dist : ℚ) (last_pos pos : Pos) : Bool :=
  decide (0 < jam_dist ∧ distSq last_pos pos < jam_dist * jam_dist)

/-- The insertion-ordered spawn-point names of `SPAWN_POINTS['italy']`
(src/utils.py lines 3-12); `itertools.cycle` iterates the dict keys in this
order. -/
def italy_spawn_points : List String :=
  ["village_mountain", "airport", "crossroads", "runway", "port",
   "city", "town_east", "small_village", "castle_town"]

/-- The insertion-ordered spawn-point names of `SPAWN_POINTS['east_coast_usa']`
(src/utils.py lines 13-18). -/
def east_coast_usa_spawn_points : List String :=
  ["townindustrial", "highway", "gasstation", "farmhouse"]

/-- An ego-vehicle teleport performed by `unjam_traffic` (src/utils.py
lines 24-31): either back to its own current pose (`inPlace`, the
`not jammed` branch) or to a named spawn point (`toSpawn`, the `jammed`
branch). -/
inductive Teleport where
  | inPlace : Teleport
  | toSpawn : String → Teleport
deriving DecidableEq

/-- The configuration of a run of `Generator.generate_images` relevant to the
jam loop: `jam_dist` and `jam_steps` from the constructor, and the
insertion-ordered spawn-point names of `SPAWN_POINTS[map]`. -/
structure GenConfig where
  jam_dist : ℚ
  jam_steps : Int
  spawns : List String
deriving DecidableEq

/-- The mutable state of the capture loop of `generate_images`, plus recorded
observable events.  `steps_without_moving_left`, `jammed`, `i` and `last_pos`
are the Python locals of the same names; `spawnCursor` counts how many names
the `cycle(SPAWN_POINTS[map])` iterator has yielded so far; `recoveries`
counts executions of the `steps_without_moving_left == 0` block; `writes`
records, in order, the frame index used by each iteration's four file writes
(lines 110-114); `teleports` records the ego teleports done by
`unjam_traffic`. -/
structure GenState where
  steps_without_moving_left : Int
  jammed : Bool
  i : Nat
  last_pos : Pos
  spawnCursor : Nat
  recoveries : Nat
  writes : List Nat
  teleports : List Teleport
deriving DecidableEq

/-- Lines 110-114: every iteration saves the colour image, annotation mask,
depth map and metadata JSON under the current frame index `i`, before the
jam check. -/
def captureWrite (s : GenState) : GenState :=
  { s with writes := s.writes ++ [s.i] }

/-- Lines 116-124: the stall/move branch.  A stalled iteration decrements the
patience counter and keeps `i`; a moving iteration clears `jammed`, resets the
counter to `jam_steps` and advances `i`. -/
def jamBranch (cfg : GenConfig) (pos : Pos) (s : GenState) : GenState :=
  if isStalled cfg.jam_dist s.last_pos pos then
    { s with steps_without_moving_left := s.steps_without_moving_left - 1 }
  else
    { s with jammed := false,
             steps_without_moving_left := cfg.jam_steps,
             i := s.i + 1 }

/-- src/utils.py lines 21-35, `unjam_traffic`: with the `jammed` flag false
the ego is teleported back to its own pose; with it true, the next name is
taken from the spawn-point cycle and the ego is teleported there. -/
def unjam_traffic (cfg : GenConfig) (s : GenState) : GenState :=
  if s.jammed then
    { s with
      teleports := s.teleports ++
        [Teleport.toSpawn (cfg.spawns.getD (s.spawnCursor % cfg.spawns.length) "")],
      spawnCursor := s.spawnCursor + 1 }
  else
    { s with teleports := s.teleports ++ [Teleport.inPlace] }

/-- Lines 126-131: when the counter equals 0 it is set to `jam_steps + 1`,
`unjam_traffic` runs with the current `jammed` flag, and the flag is then set
to true. -/
def recoveryCheck (cfg : GenConfig) (s : GenState) : GenState :=
  if s.steps_without_moving_left = 0 then
    { unjam_traffic cfg
        { s with steps_without_moving_left := cfg.jam_steps + 1,
                 recoveries := s.recoveries + 1 } with
      jammed := true }
  else s

/-- One iteration of the `while i < self.imgs` loop (lines 105-133), given the
position polled at line 107: write the frame record, run the stall/move
branch, run the recovery check, and remember `last_pos = pos` (line 132). -/
def loopStep (cfg : GenConfig) (s : GenState) (pos : Pos) : GenState :=
  { recoveryCheck cfg (jamBranch cfg pos (captureWrite s)) with last_pos := pos }

/-- Run the capture loop over a finite trace of polled positions. -/
def runLoop (cfg : GenConfig) (s : GenState) : List Pos → GenState
  | [] => s
  | pos :: rest => runLoop cfg (loopStep cfg s pos) rest

/-- The loop state at lines 98-102: full patience, flag clear, sentinel
previous position `(0, 0, 0)`, frame index 0.  `spawnCursor = 1` because
`setup_and_load_scenario` (line 54) has already consumed one name from
`cycle(SPAWN_POINTS[map])`. -/
def initState (cfg : GenConfig) : GenState :=
  { steps_without_moving_left := cfg.jam_steps
    jammed := false
    i := 0
    last_pos := ((0 : ℚ), (0 : ℚ), (0 : ℚ))
    spawnCursor := 1
    recoveries := 0
    writes := []
    teleports := [] }

/-- Predicate `allMoving jd prev ps`: every consecutive displacement along
`prev :: ps` is at least `jd` (no step is stalled). -/
def allMoving (jam_dist : ℚ) : Pos → List Pos → Bool
  | _, [] => true
  | prev, p :: ps => !isStalled jam_dist prev p && allMoving jam_dist p ps

/-- Predicate `allStalled jd prev ps`: every consecutive displacement along
`prev :: ps` is below `jd` (every step is stalled). -/
def allStalled (jam_dist : ℚ) : Pos → List Pos → Bool
  | _, [] => true
  | prev, p :: ps => isStalled jam_dist prev p && allStalled jam_dist p ps

/-- Number of parameters in the definition `def get_metadata(ego)` of
src/utils.py line 38. -/
def get_metadata_param_count : Nat := 1

/-- Number of positional arguments in the call
`get_metadata(self.beamng, ego)` at src/generate_annotated_dataset.py
line 109. -/
def generate_images_metadata_arg_count : Nat := 2

/-- One loop iteration with Python call-arity checking for the
`get_metadata` call at line 109: a call whose argument count differs from the
callee's parameter count raises `TypeError` there, before the file writes of
lines 110-114; an error carries the state at the moment of the raise. -/
def loopStepChecked (cfg : GenConfig) (s : GenState) (pos : Pos) :
    Except (String × GenState) GenState :=
  if generate_images_metadata_arg_count = get_metadata_param_count then
    Except.ok (loopStep cfg s pos)
  else
    Except.error ("TypeError", s)

/-- The capture loop with call-arity checking: the first raised `TypeError`
propagates out of the loop. -/
def runLoopChecked (cfg : GenConfig) (s : GenState) :
    List Pos → Except (String × GenState) GenState
  | [] => Except.ok s
  | pos :: rest =>
    match loopStepChecked cfg s pos with
    | Except.ok s1 => runLoopChecked cfg s1 rest
    | Except.error e => Except.error e

/-- The default configuration of the command line (`--jam-dist 0.2`,
`--jam-steps 2`) on the `italy` map; `0.2 = 1/5` exactly. -/
def cfgDefault : GenConfig :=
  { jam_dist := 1 / 5, jam_steps := 2, spawns := italy_spawn_points }

/-- The default configuration with `--jam-steps 0`. -/
def cfgZero : GenConfig :=
  { jam_dist := 1 / 5, jam_steps := 0, spawns := italy_spawn_points }

/-- The sentinel origin used to initialise `last_pos` (line 100). -/
def sentinelPos : Pos := ((0 : ℚ), (0 : ℚ), (0 : ℚ))

/-- A position 5 units from the origin along the x axis. -/
def posFive : Pos := ((5 : ℚ), (0 : ℚ), (0 : ℚ))

/-- A loop state in which patience is exhausted on the next stalled step and
the `jammed` flag is already set, with the spawn cursor at the last italy
spawn name; used to exercise the wrap-around of the spawn cycle. -/
def stateJammedAtCursorEight : GenState :=
  { steps_without_moving_left := 1
    jammed := true
    i := 7
    last_pos := sentinelPos
    spawnCursor := 8
    recoveries := 1
    writes := []
    teleports := [] }

/-- The state after one stalled iteration of the default configuration. -/
def stateDefaultOne : GenState :=
  { steps_without_moving_left := 1, jammed := false, i := 0,
    last_pos := sentinelPos, spawnCursor := 1, recoveries := 0,
    writes := [0], teleports := [] }

/-- The state after two stalled iterations of the default configuration:
the second iteration exhausts the patience and performs an in-place
recovery. -/
def stateDefaultTwo : GenState :=
  { steps_without_moving_left := 3, jammed := true, i := 0,
    last_pos := sentinelPos, spawnCursor := 1, recoveries := 1,
    writes := [0, 0], teleports := [Teleport.inPlace] }

/-- The state after a stalled first iteration followed by a moving one, for
the default configuration. -/
def stateDefaultFar : GenState :=
  { steps_without_moving_left := 2, jammed := false, i := 1,
    last_pos := posFive, spawnCursor := 1, recoveries := 0,
    writes := [0, 0], teleports := [] }

/-- The state after one stalled iteration with `jam_steps = 0`. -/
def stateZeroOne : GenState :=
  { steps_without_moving_left := -1, jammed := false, i := 0,
    last_pos := sentinelPos, spawnCursor := 1, recoveries := 0,
    writes := [0], teleports := [] }

/-- The state after a stalled iteration and then a moving one with
`jam_steps = 0`: the moving branch resets the counter to 0, which fires the
recovery check. -/
def stateZeroTwo : GenState :=
  { steps_without_moving_left := 1, jammed := true, i := 1,
    last_pos := posFive, spawnCursor := 1, recoveries := 1,
    writes := [0, 0], teleports := [Teleport.inPlace] }

/-- The state following `stateJammedAtCursorEight` after one stalled
iteration: a recovery with the flag already set takes the ninth italy spawn
name. -/
def stateJammedNine : GenState :=
  { steps_without_moving_left := 3, jammed := true, i := 7,
    last_pos := sentinelPos, spawnCursor := 9, recoveries := 2,
    writes := [7], teleports := [Teleport.toSpawn "castle_town"] }

/-! ## Characterisation of one loop iteration -/

lemma runLoop_nil (cfg : GenConfig) (s : GenState) : runLoop cfg s [] = s := rfl

lemma runLoop_cons (cfg : GenConfig) (s : GenState) (p : Pos) (ps : List Pos) :
    runLoop cfg s (p :: ps) = runLoop cfg (loopStep cfg s p) ps := rfl

/-- A stalled iteration whose decrement does not reach 0: only the counter,
the write log and `last_pos` change. -/
lemma loopStep_stalled_no_recovery (cfg : GenConfig) (s : GenState) (pos : Pos)
    (hst : isStalled cfg.jam_dist s.last_pos pos = true)
    (hp : s.steps_without_moving_left ≠ 1) :
    loopStep cfg s pos =
      { s with steps_without_moving_left := s.steps_without_moving_left - 1,
               writes := s.writes ++ [s.i],
               last_pos := pos } := by
  simp only [loopStep, captureWrite, jamBranch, recoveryCheck, hst, if_true]
  rw [if_neg (by omega : ¬ (s.steps_without_moving_left - 1 = 0))]

/-- A stalled iteration that exhausts the patience counter, with the `jammed`
flag clear: recovery runs, teleporting the ego in place. -/
lemma loopStep_stalled_recovery_unjammed (cfg : GenConfig) (s : GenState) (pos : Pos)
    (hst : isStalled cfg.jam_dist s.last_pos pos = true)
    (hp : s.steps_without_moving_left = 1)
    (hj : s.jammed = false) :
    loopStep cfg s pos =
      { s with steps_without_moving_left := cfg.jam_steps + 1,
               jammed := true,
               recoveries := s.recoveries + 1,
               writes := s.writes ++ [s.i],
               teleports := s.teleports ++ [Teleport.inPlace],
               last_pos := pos } := by
  simp only [loopStep, captureWrite, jamBranch, recoveryCheck, unjam_traffic, hst, if_true, hp,
    sub_self, if_true, hj, Bool.false_eq_true, if_false]

/-- A stalled iteration that exhausts the patience counter, with the `jammed`
flag already set: recovery runs, taking the next name from the spawn cycle
and teleporting the ego there. -/
lemma loopStep_stalled_recovery_jammed (cfg : GenConfig) (s : GenState) (pos : Pos)
    (hst : isStalled cfg.jam_dist s.last_pos pos = true)
    (hp : s.steps_without_moving_left = 1)
    (hj : s.jammed = true) :
    loopStep cfg s pos =
      { s with steps_without_moving_left := cfg.jam_steps + 1,
               jammed := true,
               recoveries := s.recoveries + 1,
               writes := s.writes ++ [s.i],
               teleports := s.teleports ++
                 [Teleport.toSpawn (cfg.spawns.getD (s.spawnCursor % cfg.spawns.length) "")],
               spawnCursor := s.spawnCursor + 1,
               last_pos := pos } := by
  simp only [loopStep, captureWrite, jamBranch, recoveryCheck, unjam_traffic, hst, if_true, hp,
    sub_self, if_true, hj]

/-- A moving iteration with `jam_steps ≠ 0`: the flag clears, the counter
resets, the frame index advances, and no recovery runs. -/
lemma loopStep_moving (cfg : GenConfig) (s : GenState) (pos : Pos)
    (hst : isStalled cfg.jam_dist s.last_pos pos = false)
    (hz : cfg.jam_steps ≠ 0) :
    loopStep cfg s pos =
      { s with steps_without_moving_left := cfg.jam_steps,
               jammed := false,
               i := s.i + 1,
               writes := s.writes ++ [s.i],
               last_pos := pos } := by
  simp only [loopStep, captureWrite, jamBranch, recoveryCheck, hst, Bool.false_eq_true, if_false,
    hz, if_neg hz]

/-- A moving iteration with `jam_steps = 0`: the counter is reset to 0, which
immediately fires the recovery check; `unjam_traffic` then runs with the flag
just cleared, so the ego is teleported in place and the flag is set again. -/
lemma loopStep_moving_zero (cfg : GenConfig) (s : GenState) (pos : Pos)
    (hst : isStalled cfg.jam_dist s.last_pos pos = false)
    (hz : cfg.jam_steps = 0) :
    loopStep cfg s pos =
      { s with steps_without_moving_left := 1,
               jammed := true,
               i := s.i + 1,
               recoveries := s.recoveries + 1,
               writes := s.writes ++ [s.i],
               teleports := s.teleports ++ [Teleport.inPlace],
               last_pos := pos } := by
  simp only [loopStep, captureWrite, jamBranch, recoveryCheck, unjam_traffic, hst,
    Bool.false_eq_true, if_false, hz, if_true, Bool.false_eq_true, zero_add]

/-! ## Generic facts about single iterations -/

/-- Polling the same position twice is always a stalled step (distance 0)
whenever `jam_dist` is positive. -/
lemma isStalled_refl (jd : ℚ) (h : 0 < jd) (p : Pos) : isStalled jd p p = true := by
  simp only [isStalled, distSq, sub_self, decide_eq_true_eq]
  constructor
  · exact h
  · simpa using mul_pos h h

/-- Every iteration writes the four frame-record files exactly once, under
the frame index current at the start of the iteration. -/
lemma loopStep_writes (cfg : GenConfig) (s : GenState) (pos : Pos) :
    (loopStep cfg s pos).writes = s.writes ++ [s.i] := by
  by_cases hst : isStalled cfg.jam_dist s.last_pos pos = true
  · by_cases hp : s.steps_without_moving_left = 1
    · by_cases hj : s.jammed = true
      · rw [loopStep_stalled_recovery_jammed cfg s pos hst hp hj]
      · rw [loopStep_stalled_recovery_unjammed cfg s pos hst hp
          (by simpa using hj)]
    · rw [loopStep_stalled_no_recovery cfg s pos hst hp]
  · by_cases hz : cfg.jam_steps = 0
    · rw [loopStep_moving_zero cfg s pos (by simpa using hst) hz]
    · rw [loopStep_moving cfg s pos (by simpa using hst) hz]

/-- A stalled iteration never advances the frame index. -/
lemma loopStep_i_stalled (cfg : GenConfig) (s : GenState) (pos : Pos)
    (hst : isStalled cfg.jam_dist s.last_pos pos = true) :
    (loopStep cfg s pos).i = s.i := by
  by_cases hp : s.steps_without_moving_left = 1
  · by_cases hj : s.jammed = true
    · rw [loopStep_stalled_recovery_jammed cfg s pos hst hp hj]
    · rw [loopStep_stalled_recovery_unjammed cfg s pos hst hp (by simpa using hj)]
  · rw [loopStep_stalled_no_recovery cfg s pos hst hp]

/-- A moving iteration advances the frame index by exactly one. -/
lemma loopStep_i_moving (cfg : GenConfig) (s : GenState) (pos : Pos)
    (hst : isStalled cfg.jam_dist s.last_pos pos = false) :
    (loopStep cfg s pos).i = s.i + 1 := by
  by_cases hz : cfg.jam_steps = 0
  · rw [loopStep_moving_zero cfg s pos hst hz]
  · rw [loopStep_moving cfg s pos hst hz]

/-- The frame index never moves by more than one, and never backwards. -/
lemma loopStep_i_mono (cfg : GenConfig) (s : GenState) (pos : Pos) :
    s.i ≤ (loopStep cfg s pos).i ∧ (loopStep cfg s pos).i ≤ s.i + 1 := by
  by_cases hst : isStalled cfg.jam_dist s.last_pos pos = true
  · rw [loopStep_i_stalled cfg s pos hst]
    omega
  · rw [loopStep_i_moving cfg s pos (by simpa using hst)]
    omega

/-- After one iteration, `last_pos` is the position that was polled. -/
lemma loopStep_last_pos (cfg : GenConfig) (s : GenState) (pos : Pos) :
    (loopStep cfg s pos).last_pos = pos := by
  by_cases hst : isStalled cfg.jam_dist s.last_pos pos = true
  · by_cases hp : s.steps_without_moving_left = 1
    · by_cases hj : s.jammed = true
      · rw [loopStep_stalled_recovery_jammed cfg s pos hst hp hj]
      · rw [loopStep_stalled_recovery_unjammed cfg s pos hst hp (by simpa using hj)]
    · rw [loopStep_stalled_no_recovery cfg s pos hst hp]
  · by_cases hz : cfg.jam_steps = 0
    · rw [loopStep_moving_zero cfg s pos (by simpa using hst) hz]
    · rw [loopStep_moving cfg s pos (by simpa using hst) hz]

/-- Every iteration that increments the recovery counter leaves the patience
counter at `jam_steps + 1` and the `jammed` flag set. -/
lemma recovery_resets_patience (cfg : GenConfig) (s : GenState) (pos : Pos)
    (hrec : (loopStep cfg s pos).recoveries ≠ s.recoveries) :
    (loopStep cfg s pos).steps_without_moving_left = cfg.jam_steps + 1 ∧
      (loopStep cfg s pos).jammed = true := by
  by_cases hst : isStalled cfg.jam_dist s.last_pos pos = true
  · by_cases hp : s.steps_without_moving_left = 1
    · by_cases hj : s.jammed = true
      · rw [loopStep_stalled_recovery_jammed cfg s pos hst hp hj]
        exact ⟨rfl, rfl⟩
      · rw [loopStep_stalled_recovery_unjammed cfg s pos hst hp (by simpa using hj)]
        exact ⟨rfl, rfl⟩
    · rw [loopStep_stalled_no_recovery cfg s pos hst hp] at hrec
      exact absurd rfl hrec
  · by_cases hz : cfg.jam_steps = 0
    · rw [loopStep_moving_zero cfg s pos (by simpa using hst) hz]
      constructor
      · simp [hz]
      · rfl
    · rw [loopStep_moving cfg s pos (by simpa using hst) hz] at hrec
      exact absurd rfl hrec

/-! ## Sequence-level facts -/

/-- With `jam_steps ≥ 1`, the patience counter stays within
`[1, jam_steps + 1]` at every iteration boundary. -/
lemma patience_bounds (cfg : GenConfig) (h1 : 1 ≤ cfg.jam_steps) (ps : List Pos) :
    ∀ s : GenState,
      1 ≤ s.steps_without_moving_left →
      s.steps_without_moving_left ≤ cfg.jam_steps + 1 →
      1 ≤ (runLoop cfg s ps).steps_without_moving_left ∧
        (runLoop cfg s ps).steps_without_moving_left ≤ cfg.jam_steps + 1 := by
  induction ps with
  | nil => exact fun s hlo hhi => ⟨hlo, hhi⟩
  | cons p ps ih =>
    intro s hlo hhi
    rw [runLoop_cons]
    by_cases hst : isStalled cfg.jam_dist s.last_pos p = true
    · by_cases hp : s.steps_without_moving_left = 1
      · by_cases hj : s.jammed = true
        · rw [loopStep_stalled_recovery_jammed cfg s p hst hp hj]
          exact ih _ (by simp only; omega) (by simp only; omega)
        · rw [loopStep_stalled_recovery_unjammed cfg s p hst hp (by simpa using hj)]
          exact ih _ (by simp only; omega) (by simp only; omega)
      · rw [loopStep_stalled_no_recovery cfg s p hst hp]
        exact ih _ (by simp only; omega) (by simp only; omega)
    · have hst' : isStalled cfg.jam_dist s.last_pos p = false := by simpa using hst
      have hz : cfg.jam_steps ≠ 0 := by omega
      rw [loopStep_moving cfg s p hst' hz]
      exact ih _ (by simp only; omega) (by simp only; omega)

/-- Along a trace in which every displacement clears `jam_dist`, the frame
index advances once per iteration and the patience counter never drops below
`jam_steps`. -/
lemma allMoving_run (cfg : GenConfig) (ps : List Pos) :
    ∀ s : GenState,
      allMoving cfg.jam_dist s.last_pos ps = true →
      cfg.jam_steps ≤ s.steps_without_moving_left →
      (runLoop cfg s ps).i = s.i + ps.length ∧
        cfg.jam_steps ≤ (runLoop cfg s ps).steps_without_moving_left := by
  induction ps with
  | nil => exact fun s _ h => ⟨rfl, h⟩
  | cons p ps ih =>
    intro s hmv hlo
    simp only [allMoving, Bool.and_eq_true, Bool.not_eq_true'] at hmv
    obtain ⟨hst, hmv⟩ := hmv
    rw [runLoop_cons]
    by_cases hz : cfg.jam_steps = 0
    · rw [loopStep_moving_zero cfg s p hst hz]
      have := ih { s with steps_without_moving_left := 1, jammed := true,
                          i := s.i + 1, recoveries := s.recoveries + 1,
                          writes := s.writes ++ [s.i],
                          teleports := s.teleports ++ [Teleport.inPlace],
                          last_pos := p } (by simpa using hmv) (by simp only; omega)
      simpa [Nat.add_assoc, Nat.add_comm 1 ps.length] using this
    · rw [loopStep_moving cfg s p hst hz]
      have := ih { s with steps_without_moving_left := cfg.jam_steps,
                          jammed := false, i := s.i + 1,
                          writes := s.writes ++ [s.i],
                          last_pos := p } (by simpa using hmv) (by simp only; omega)
      simpa [Nat.add_assoc, Nat.add_comm 1 ps.length] using this

/-- A prefix of an all-moving trace is all-moving. -/
lemma allMoving_take (jd : ℚ) (ps : List Pos) :
    ∀ (k : Nat) (prev : Pos), allMoving jd prev ps = true →
      allMoving jd prev (ps.take k) = true := by
  induction ps with
  | nil => intro k prev _; simp [allMoving]
  | cons p ps ih =>
    intro k prev hmv
    cases k with
    | zero => simp [allMoving]
    | succ k =>
      simp only [allMoving, Bool.and_eq_true] at hmv
      simp only [List.take_succ_cons, allMoving, Bool.and_eq_true]
      exact ⟨hmv.1, ih k p hmv.2⟩

/-- Running the loop from a state with `1 ≤ patience` over an all-stalled
trace whose length equals the patience: the counter counts down to 0 on the
final iteration, which therefore performs exactly one recovery with the
`jammed` flag that was in force throughout, sets the flag, resets the counter
to `jam_steps + 1`, and never advances the frame index. -/
lemma stalled_run (cfg : GenConfig) (ps : List Pos) :
    ∀ s : GenState,
      allStalled cfg.jam_dist s.last_pos ps = true →
      1 ≤ s.steps_without_moving_left →
      ps.length = s.steps_without_moving_left.toNat →
      (runLoop cfg s ps).steps_without_moving_left = cfg.jam_steps + 1 ∧
        (runLoop cfg s ps).jammed = true ∧
        (runLoop cfg s ps).recoveries = s.recoveries + 1 ∧
        (runLoop cfg s ps).i = s.i ∧
        (runLoop cfg s ps).spawnCursor
          = s.spawnCursor + (if s.jammed then 1 else 0) ∧
        (runLoop cfg s ps).teleports = s.teleports ++
          [if s.jammed then
             Teleport.toSpawn (cfg.spawns.getD (s.spawnCursor % cfg.spawns.length) "")
           else Teleport.inPlace] := by
  induction ps with
  | nil =>
    intro s _ hlo hlen
    simp only [List.length_nil] at hlen
    omega
  | cons p ps ih =>
    intro s hstall hlo hlen
    simp only [allStalled, Bool.and_eq_true] at hstall
    obtain ⟨hst, hstall⟩ := hstall
    rw [runLoop_cons]
    by_cases hp : s.steps_without_moving_left = 1
    · have hps : ps = [] := by
        have : ps.length = 0 := by
          simp only [List.length_cons] at hlen
          omega
        exact List.eq_nil_of_length_eq_zero this
      subst hps
      by_cases hj : s.jammed = true
      · rw [loopStep_stalled_recovery_jammed cfg s p hst hp hj, runLoop_nil]
        simp [hj]
      · have hj' : s.jammed = false := by simpa using hj
        rw [loopStep_stalled_recovery_unjammed cfg s p hst hp hj', runLoop_nil]
        simp [hj']
    · have h2 : 2 ≤ s.steps_without_moving_left := by omega
      rw [loopStep_stalled_no_recovery cfg s p hst hp]
      have := ih { s with steps_without_moving_left := s.steps_without_moving_left - 1,
                          writes := s.writes ++ [s.i], last_pos := p }
        (by simpa using hstall) (by simp only; omega)
        (by simp only [List.length_cons] at hlen ⊢; omega)
      simpa using this

/-- Every index ever written during a run from `s` is either an index already
written before or at least the frame index of `s`: once the loop has moved
past an index, that index's files are never written again. -/
lemma writes_after (cfg : GenConfig) (ps : List Pos) :
    ∀ (s : GenState) (j : Nat), j ∈ (runLoop cfg s ps).writes →
      j ∈ s.writes ∨ s.i ≤ j := by
  induction ps with
  | nil => exact fun s j hj => Or.inl hj
  | cons p ps ih =>
    intro s j hj
    rw [runLoop_cons] at hj
    rcases ih _ j hj with hmem | hle
    · rw [loopStep_writes] at hmem
      rcases List.mem_append.mp hmem with h | h
      · exact Or.inl h
      · simp only [List.mem_singleton] at h
        omega
    · have := (loopStep_i_mono cfg s p).1
      omega

/-! ## The embedded distance test against the real Euclidean distance -/

/-- The squared distance is nonnegative. -/
lemma distSq_nonneg (p q : Pos) : 0 ≤ distSq p q := by
  simp only [distSq]
  positivity

/-- The embedded stall test agrees with the comparison of the real Euclidean
distance (the square root of the squared distance) against `jam_dist`. -/
lemma isStalled_iff_sqrt (jd : ℚ) (p q : Pos) :
    isStalled jd p q = true ↔ Real.sqrt ((distSq p q : ℚ) : ℝ) < (jd : ℝ) := by
  simp only [isStalled, decide_eq_true_eq]
  constructor
  · rintro ⟨h0, hlt⟩
    have h0' : (0 : ℝ) < (jd : ℝ) := by exact_mod_cast h0
    rw [Real.sqrt_lt' h0']
    have hlt' : ((distSq p q : ℚ) : ℝ) < ((jd : ℚ) : ℝ) * ((jd : ℚ) : ℝ) := by
      exact_mod_cast hlt
    nlinarith [hlt']
  · intro h
    have h0' : (0 : ℝ) < (jd : ℝ) :=
      lt_of_le_of_lt (Real.sqrt_nonneg _) h
    have h0 : 0 < jd := by exact_mod_cast h0'
    refine ⟨h0, ?_⟩
    rw [Real.sqrt_lt' h0'] at h
    have h' : ((distSq p q : ℚ) : ℝ) < ((jd : ℚ) : ℝ) * ((jd : ℚ) : ℝ) := by nlinarith [h]
    exact_mod_cast h'

/-! ## Concrete traces -/

/-- Running a concatenated trace runs the two parts in order. -/
lemma runLoop_append (cfg : GenConfig) (ps qs : List Pos) :
    ∀ s : GenState, runLoop cfg s (ps ++ qs) = runLoop cfg (runLoop cfg s ps) qs := by
  induction ps with
  | nil => intro s; rfl
  | cons p ps ih => intro s; simp only [List.cons_append, runLoop_cons]; exact ih _

/-- Moving 5 units clears the default jam distance of 0.2. -/
lemma isStalled_far_default : isStalled cfgDefault.jam_dist sentinelPos posFive = false := by
  simp only [isStalled, cfgDefault, sentinelPos, posFive, distSq, decide_eq_false_iff_not]
  intro h
  norm_num at h

/-- Moving 5 units clears the jam distance of the `jam_steps = 0`
configuration. -/
lemma isStalled_far_zero : isStalled cfgZero.jam_dist sentinelPos posFive = false := by
  simp only [isStalled, cfgZero, sentinelPos, posFive, distSq, decide_eq_false_iff_not]
  intro h
  norm_num at h

/-- The default jam distance is positive. -/
lemma pos_default : (0 : ℚ) < cfgDefault.jam_dist := by norm_num [cfgDefault]

/-- The jam distance of the `jam_steps = 0` configuration is positive. -/
lemma pos_zero : (0 : ℚ) < cfgZero.jam_dist := by norm_num [cfgZero]

/-- First stalled iteration of the default run. -/
lemma run_default_one :
    runLoop cfgDefault (initState cfgDefault) [sentinelPos] = stateDefaultOne := by
  rw [runLoop_cons, runLoop_nil,
    loopStep_stalled_no_recovery cfgDefault (initState cfgDefault) sentinelPos
      (by exact isStalled_refl _ pos_default _) (by decide)]
  rfl

/-- Two stalled iterations of the default run: the second one exhausts the
patience counter and recovers in place. -/
lemma run_default_two :
    runLoop cfgDefault (initState cfgDefault) [sentinelPos, sentinelPos] = stateDefaultTwo := by
  rw [show ([sentinelPos, sentinelPos] : List Pos) = [sentinelPos] ++ [sentinelPos] from rfl,
    runLoop_append, run_default_one, runLoop_cons, runLoop_nil,
    loopStep_stalled_recovery_unjammed cfgDefault stateDefaultOne sentinelPos
      (by exact isStalled_refl _ pos_default _) rfl rfl]
  rfl

/-- A stalled iteration followed by a moving one in the default run. -/
lemma run_default_far :
    runLoop cfgDefault (initState cfgDefault) [sentinelPos, posFive] = stateDefaultFar := by
  rw [show ([sentinelPos, posFive] : List Pos) = [sentinelPos] ++ [posFive] from rfl,
    runLoop_append, run_default_one, runLoop_cons, runLoop_nil,
    loopStep_moving cfgDefault stateDefaultOne posFive
      (by exact isStalled_far_default) (by decide)]
  rfl

/-- First stalled iteration with `jam_steps = 0`: the counter goes to -1 and
no recovery fires. -/
lemma run_zero_one :
    runLoop cfgZero (initState cfgZero) [sentinelPos] = stateZeroOne := by
  rw [runLoop_cons, runLoop_nil,
    loopStep_stalled_no_recovery cfgZero (initState cfgZero) sentinelPos
      (by exact isStalled_refl _ pos_zero _) (by decide)]
  rfl

/-- With `jam_steps = 0`, a stalled iteration followed by a moving one: the
moving branch resets the counter to 0 and the recovery check fires. -/
lemma run_zero_two :
    runLoop cfgZero (initState cfgZero) [sentinelPos, posFive] = stateZeroTwo := by
  rw [show ([sentinelPos, posFive] : List Pos) = [sentinelPos] ++ [posFive] from rfl,
    runLoop_append, run_zero_one, runLoop_cons, runLoop_nil,
    loopStep_moving_zero cfgZero stateZeroOne posFive
      (by exact isStalled_far_zero) rfl]
  rfl

/-- A recovery with the flag already set at spawn cursor 8 takes the ninth
italy spawn name, `castle_town`. -/
lemma step_jammed_eight :
    loopStep cfgDefault stateJammedAtCursorEight sentinelPos = stateJammedNine := by
  rw [loopStep_stalled_recovery_jammed cfgDefault stateJammedAtCursorEight sentinelPos
    (by exact isStalled_refl _ pos_default _) rfl rfl]
  rfl

/-- The trace `[posFive]` from the sentinel is all-moving for the default
configuration. -/
lemma allMoving_single_far :
    allMoving cfgDefault.jam_dist sentinelPos [posFive] = true := by
  simp [allMoving, isStalled_far_default]

/-- Two polls at the sentinel are all-stalled for the default
configuration. -/
lemma allStalled_two :
    allStalled cfgDefault.jam_dist sentinelPos [sentinelPos, sentinelPos] = true := by
  simp [allStalled, isStalled_refl _ pos_default]

/-- Three polls at the sentinel are all-stalled for the default
configuration. -/
lemma allStalled_three :
    allStalled cfgDefault.jam_dist sentinelPos
      [sentinelPos, sentinelPos, sentinelPos] = true := by
  simp [allStalled, isStalled_refl _ pos_default]

/-! ## Claims -/

/-- C1: In every capture-loop iteration, if the distance between the polled
position and the previous position is below `jam_dist`, the stall branch
decrements the patience counter by one and the frame index does not advance;
otherwise the branch resets the counter to `jam_steps`, clears the `jammed`
flag, and the frame index advances by exactly one.  Consequently, along any
trace from the initial state whose consecutive displacements all clear
`jam_dist`, the counter never drops below its initial value `jam_steps` and
the frame index advances exactly once per step. -/
theorem C1_branch_semantics_and_progress (cfg : GenConfig) :
    (∀ (s : GenState) (pos : Pos),
        isStalled cfg.jam_dist s.last_pos pos = true →
        (jamBranch cfg pos (captureWrite s)).steps_without_moving_left
            = s.steps_without_moving_left - 1 ∧
        (loopStep cfg s pos).i = s.i) ∧
    (∀ (s : GenState) (pos : Pos),
        isStalled cfg.jam_dist s.last_pos pos = false →
        (jamBranch cfg pos (captureWrite s)).steps_without_moving_left
            = cfg.jam_steps ∧
        (jamBranch cfg pos (captureWrite s)).jammed = false ∧
        (loopStep cfg s pos).i = s.i + 1) ∧
    (∀ (ps : List Pos) (k : Nat),
        allMoving cfg.jam_dist (initState cfg).last_pos ps = true →
        (runLoop cfg (initState cfg) (ps.take k)).i = min k ps.length ∧
        cfg.jam_steps
          ≤ (runLoop cfg (initState cfg) (ps.take k)).steps_without_moving_left) := by
  refine ⟨?_, ?_, ?_⟩
  · intro s pos hst
    refine ⟨?_, loopStep_i_stalled cfg s pos hst⟩
    simp [jamBranch, captureWrite, hst]
  · intro s pos hst
    refine ⟨?_, ?_, loopStep_i_moving cfg s pos hst⟩
    · simp [jamBranch, captureWrite, hst]
    · simp [jamBranch, captureWrite, hst]
  · intro ps k hmv
    have hmv' := allMoving_take cfg.jam_dist ps k (initState cfg).last_pos hmv
    have h := allMoving_run cfg (ps.take k) (initState cfg) hmv'
      (by show cfg.jam_steps ≤ cfg.jam_steps; exact le_refl _)
    refine ⟨?_, h.2⟩
    rw [h.1]
    show 0 + (ps.take k).length = min k ps.length
    simp [List.length_take]

/-- Witness for C1 at the default configuration: a stalled first step from
the sentinel, a moving step, and a one-step all-moving trace. -/
theorem C1_witness :
    ((jamBranch cfgDefault sentinelPos
          (captureWrite (initState cfgDefault))).steps_without_moving_left
        = (initState cfgDefault).steps_without_moving_left - 1 ∧
      (loopStep cfgDefault (initState cfgDefault) sentinelPos).i
        = (initState cfgDefault).i) ∧
    ((jamBranch cfgDefault posFive
          (captureWrite (initState cfgDefault))).steps_without_moving_left
        = cfgDefault.jam_steps ∧
      (jamBranch cfgDefault posFive (captureWrite (initState cfgDefault))).jammed
        = false ∧
      (loopStep cfgDefault (initState cfgDefault) posFive).i
        = (initState cfgDefault).i + 1) ∧
    ((runLoop cfgDefault (initState cfgDefault) ([posFive].take 1)).i
        = min 1 [posFive].length ∧
      cfgDefault.jam_steps
        ≤ (runLoop cfgDefault (initState cfgDefault)
            ([posFive].take 1)).steps_without_moving_left) := by
  refine ⟨(C1_branch_semantics_and_progress cfgDefault).1 (initState cfgDefault)
      sentinelPos (by exact isStalled_refl _ pos_default _),
    (C1_branch_semantics_and_progress cfgDefault).2.1 (initState cfgDefault)
      posFive (by exact isStalled_far_default),
    (C1_branch_semantics_and_progress cfgDefault).2.2 [posFive] 1
      (by exact allMoving_single_far)⟩

/-- C2: In every iteration in which the patience counter reaches exactly 0
after the decrement (that is, the step is stalled with one unit of patience
remaining), recovery runs in that same iteration, the counter is set to
`jam_steps + 1`, and the `jammed` flag is set; moreover, after any iteration
that performs a recovery, the counter equals `jam_steps + 1`. -/
theorem C2_recovery_on_zero (cfg : GenConfig) :
    (∀ (s : GenState) (pos : Pos),
        isStalled cfg.jam_dist s.last_pos pos = true →
        s.steps_without_moving_left = 1 →
        (loopStep cfg s pos).steps_without_moving_left = cfg.jam_steps + 1 ∧
        (loopStep cfg s pos).jammed = true ∧
        (loopStep cfg s pos).recoveries = s.recoveries + 1) ∧
    (∀ (s : GenState) (pos : Pos),
        (loopStep cfg s pos).recoveries ≠ s.recoveries →
        (loopStep cfg s pos).steps_without_moving_left = cfg.jam_steps + 1 ∧
        (loopStep cfg s pos).jammed = true) := by
  constructor
  · intro s pos hst hp
    by_cases hj : s.jammed = true
    · rw [loopStep_stalled_recovery_jammed cfg s pos hst hp hj]
      exact ⟨rfl, rfl, rfl⟩
    · rw [loopStep_stalled_recovery_unjammed cfg s pos hst hp (by simpa using hj)]
      exact ⟨rfl, rfl, rfl⟩
  · exact fun s pos hrec => recovery_resets_patience cfg s pos hrec

/-- Witness for C2: a stalled step with one unit of patience left, and a
recovery-performing step. -/
theorem C2_witness :
    ((loopStep cfgDefault stateDefaultOne sentinelPos).steps_without_moving_left
        = cfgDefault.jam_steps + 1 ∧
      (loopStep cfgDefault stateDefaultOne sentinelPos).jammed = true ∧
      (loopStep cfgDefault stateDefaultOne sentinelPos).recoveries
        = stateDefaultOne.recoveries + 1) ∧
    ((loopStep cfgDefault stateJammedAtCursorEight sentinelPos).steps_without_moving_left
        = cfgDefault.jam_steps + 1 ∧
      (loopStep cfgDefault stateJammedAtCursorEight sentinelPos).jammed = true) := by
  refine ⟨(C2_recovery_on_zero cfgDefault).1 stateDefaultOne sentinelPos
      (by exact isStalled_refl _ pos_default _) rfl,
    (C2_recovery_on_zero cfgDefault).2 stateJammedAtCursorEight sentinelPos ?_⟩
  rw [step_jammed_eight]
  decide

/-- C3 counterexample: with the default configuration (`jam_steps = 2`), two
stalled steps leave the patience counter at 3, outside `[0, jam_steps]` — the
run state is reachable and its counter exceeds `jam_steps`. -/
theorem C3_counterexample :
    ¬ ((runLoop cfgDefault (initState cfgDefault)
          [sentinelPos, sentinelPos]).steps_without_moving_left
        ≤ cfgDefault.jam_steps) := by
  rw [run_default_two]
  decide

/-- C3 amended: with `jam_steps ≥ 1` the patience counter lies in
`[1, jam_steps + 1]` (not `[0, jam_steps]`) at every iteration boundary of
every run; after a recovery it equals `jam_steps + 1`. -/
theorem C3_amended_patience_bounds (cfg : GenConfig)
    (h1 : 1 ≤ cfg.jam_steps) (ps : List Pos) :
    1 ≤ (runLoop cfg (initState cfg) ps).steps_without_moving_left ∧
      (runLoop cfg (initState cfg) ps).steps_without_moving_left
        ≤ cfg.jam_steps + 1 :=
  patience_bounds cfg h1 ps (initState cfg)
    (by show 1 ≤ cfg.jam_steps; omega)
    (by show cfg.jam_steps ≤ cfg.jam_steps + 1; omega)

/-- Witness for the amended C3 at the default configuration. -/
theorem C3_amended_witness :
    1 ≤ (runLoop cfgDefault (initState cfgDefault)
          [sentinelPos]).steps_without_moving_left ∧
      (runLoop cfgDefault (initState cfgDefault)
          [sentinelPos]).steps_without_moving_left ≤ cfgDefault.jam_steps + 1 :=
  C3_amended_patience_bounds cfgDefault (by decide) [sentinelPos]

/-- C4 counterexample: with the default configuration, two stalled
iterations both write the frame record for index 0 — the files of index 0
are written twice (the second write overwrites the first), not exactly
once. -/
theorem C4_counterexample :
    (runLoop cfgDefault (initState cfgDefault) [sentinelPos, sentinelPos]).writes
        = [0, 0] ∧
      ((runLoop cfgDefault (initState cfgDefault)
          [sentinelPos, sentinelPos]).writes).count 0 ≠ 1 := by
  rw [run_default_two]
  exact ⟨rfl, by decide⟩

/-- C4 amended: every iteration writes the four frame-record files exactly
once, under the frame index current at the start of that iteration (so a
stalled iteration makes the next iteration overwrite the same index); the
index never decreases and moves by at most one per iteration, and once the
loop has advanced past an index that index is never written again. -/
theorem C4_amended_write_once_per_iteration (cfg : GenConfig) :
    (∀ (s : GenState) (pos : Pos),
        (loopStep cfg s pos).writes = s.writes ++ [s.i] ∧
        s.i ≤ (loopStep cfg s pos).i ∧ (loopStep cfg s pos).i ≤ s.i + 1) ∧
    (∀ (ps : List Pos) (s : GenState) (j : Nat),
        j ∈ (runLoop cfg s ps).writes → j ∈ s.writes ∨ s.i ≤ j) :=
  ⟨fun s pos => ⟨loopStep_writes cfg s pos, loopStep_i_mono cfg s pos⟩,
   fun ps s j h => writes_after cfg ps s j h⟩

/-- Witness for the amended C4: the first iteration writes index 0, and an
index found in the write log of a run is not below the starting frame
index. -/
theorem C4_amended_witness :
    (loopStep cfgDefault (initState cfgDefault) sentinelPos).writes
        = (initState cfgDefault).writes ++ [(initState cfgDefault).i] ∧
    ((0 : Nat) ∈ (initState cfgDefault).writes ∨ (initState cfgDefault).i ≤ 0) := by
  constructor
  · exact ((C4_amended_write_once_per_iteration cfgDefault).1
      (initState cfgDefault) sentinelPos).1
  · exact (C4_amended_write_once_per_iteration cfgDefault).2 [sentinelPos]
      (initState cfgDefault) 0 (by rw [run_default_one]; decide)

/-- C5: Whenever recovery triggers while the `jammed` flag is already set,
the spawn-point cycle advances by exactly one name (modulo the number of
named locations, so it wraps back to the first after the last) and the ego
vehicle is teleported to that spawn point rather than to its own pose;
staying stalled for the whole next patience window, the following recovery
chooses exactly the next name in cyclic order. -/
theorem C5_jammed_recovery_advances_spawn_cycle (cfg : GenConfig)
    (s : GenState) (pos : Pos)
    (_hn : 0 < cfg.spawns.length)
    (hst : isStalled cfg.jam_dist s.last_pos pos = true)
    (hp : s.steps_without_moving_left = 1)
    (hj : s.jammed = true) :
    (loopStep cfg s pos).teleports = s.teleports ++
        [Teleport.toSpawn (cfg.spawns.getD (s.spawnCursor % cfg.spawns.length) "")] ∧
    (loopStep cfg s pos).spawnCursor = s.spawnCursor + 1 ∧
    (loopStep cfg s pos).jammed = true ∧
    (∀ qs : List Pos,
        1 ≤ cfg.jam_steps →
        allStalled cfg.jam_dist (loopStep cfg s pos).last_pos qs = true →
        qs.length = (cfg.jam_steps + 1).toNat →
        (runLoop cfg (loopStep cfg s pos) qs).teleports = s.teleports ++
            [Teleport.toSpawn (cfg.spawns.getD (s.spawnCursor % cfg.spawns.length) ""),
             Teleport.toSpawn
               (cfg.spawns.getD ((s.spawnCursor + 1) % cfg.spawns.length) "")] ∧
        (runLoop cfg (loopStep cfg s pos) qs).spawnCursor = s.spawnCursor + 2) := by
  have hstep := loopStep_stalled_recovery_jammed cfg s pos hst hp hj
  refine ⟨by rw [hstep], by rw [hstep], by rw [hstep], ?_⟩
  intro qs h1 hstall hlen
  have hlo : 1 ≤ (loopStep cfg s pos).steps_without_moving_left := by
    rw [hstep]
    show 1 ≤ cfg.jam_steps + 1
    omega
  have hlen2 : qs.length = (loopStep cfg s pos).steps_without_moving_left.toNat := by
    rw [hstep]
    exact hlen
  obtain ⟨_, _, _, _, hE, hF⟩ :=
    stalled_run cfg qs (loopStep cfg s pos) hstall hlo hlen2
  constructor
  · rw [hF, hstep]
    simp
  · rw [hE, hstep]
    simp

/-- Witness for C5: from a jammed state at spawn cursor 8 on the italy map,
the first recovery teleports to the ninth name `castle_town`; staying stalled
through the next window, the second recovery wraps around to the first name
`village_mountain`. -/
theorem C5_witness :
    (loopStep cfgDefault stateJammedAtCursorEight sentinelPos).teleports
        = [Teleport.toSpawn "castle_town"] ∧
    (loopStep cfgDefault stateJammedAtCursorEight sentinelPos).spawnCursor = 9 ∧
    (runLoop cfgDefault (loopStep cfgDefault stateJammedAtCursorEight sentinelPos)
        [sentinelPos, sentinelPos, sentinelPos]).teleports
        = [Teleport.toSpawn "castle_town", Teleport.toSpawn "village_mountain"] ∧
    (runLoop cfgDefault (loopStep cfgDefault stateJammedAtCursorEight sentinelPos)
        [sentinelPos, sentinelPos, sentinelPos]).spawnCursor = 10 := by
  obtain ⟨h1, h2, h3, h4⟩ := C5_jammed_recovery_advances_spawn_cycle cfgDefault
    stateJammedAtCursorEight sentinelPos (by decide)
    (by exact isStalled_refl _ pos_default _) rfl rfl
  have h5 := h4 [sentinelPos, sentinelPos, sentinelPos] (by decide)
    (by rw [step_jammed_eight]; exact allStalled_three) (by decide)
  refine ⟨?_, ?_, ?_, ?_⟩
  · rw [h1]
    rfl
  · rw [h2]
    rfl
  · rw [h5.1]
    rfl
  · rw [h5.2]
    rfl

/-- C6: Starting from the initial state (counter at `jam_steps`, flag clear),
a trace that is stalled for exactly `jam_steps` consecutive steps triggers
recovery exactly once during those steps, and the `jammed` flag goes from
false to true. -/
theorem C6_stall_window_triggers_once (cfg : GenConfig) (ps : List Pos)
    (h1 : 1 ≤ cfg.jam_steps)
    (hlen : ps.length = cfg.jam_steps.toNat)
    (hstall : allStalled cfg.jam_dist (initState cfg).last_pos ps = true) :
    (initState cfg).jammed = false ∧
    (runLoop cfg (initState cfg) ps).recoveries = 1 ∧
    (runLoop cfg (initState cfg) ps).jammed = true ∧
    (runLoop cfg (initState cfg) ps).steps_without_moving_left
      = cfg.jam_steps + 1 := by
  obtain ⟨hA, hB, hC, _, _, _⟩ := stalled_run cfg ps (initState cfg) hstall
    (by show 1 ≤ cfg.jam_steps; omega)
    (by exact hlen)
  exact ⟨rfl, hC, hB, hA⟩

/-- Witness for C6: two stalled steps at the default configuration
(`jam_steps = 2`). -/
theorem C6_witness :
    (initState cfgDefault).jammed = false ∧
    (runLoop cfgDefault (initState cfgDefault)
        [sentinelPos, sentinelPos]).recoveries = 1 ∧
    (runLoop cfgDefault (initState cfgDefault)
        [sentinelPos, sentinelPos]).jammed = true ∧
    (runLoop cfgDefault (initState cfgDefault)
        [sentinelPos, sentinelPos]).steps_without_moving_left
      = cfgDefault.jam_steps + 1 :=
  C6_stall_window_triggers_once cfgDefault [sentinelPos, sentinelPos]
    (by decide) (by decide) (by exact allStalled_two)

/-- C7: With `jam_dist = 0.2` and `jam_steps = 2`, polling `(0,0,0)` three
times gives: after step 1 the counter is 1 and no recovery has occurred;
during step 2 the decrement takes the counter to 0, recovery triggers, the
`jammed` flag becomes true and the counter resets to 3. -/
theorem C7_concrete_default_trace :
    cfgDefault.jam_dist = 1 / 5 ∧
    cfgDefault.jam_steps = 2 ∧
    (runLoop cfgDefault (initState cfgDefault)
        [sentinelPos]).steps_without_moving_left = 1 ∧
    (runLoop cfgDefault (initState cfgDefault) [sentinelPos]).recoveries = 0 ∧
    (runLoop cfgDefault (initState cfgDefault) [sentinelPos]).jammed = false ∧
    (jamBranch cfgDefault sentinelPos
        (captureWrite (runLoop cfgDefault (initState cfgDefault)
          [sentinelPos]))).steps_without_moving_left = 0 ∧
    (runLoop cfgDefault (initState cfgDefault)
        [sentinelPos, sentinelPos]).steps_without_moving_left = 3 ∧
    (runLoop cfgDefault (initState cfgDefault)
        [sentinelPos, sentinelPos]).recoveries = 1 ∧
    (runLoop cfgDefault (initState cfgDefault)
        [sentinelPos, sentinelPos]).jammed = true := by
  refine ⟨rfl, rfl, ?_, ?_, ?_, ?_, ?_, ?_, ?_⟩
  · rw [run_default_one]
    rfl
  · rw [run_default_one]
    rfl
  · rw [run_default_one]
    rfl
  · rw [run_default_one]
    simp [jamBranch, captureWrite, stateDefaultOne, isStalled_refl _ pos_default]
  · rw [run_default_two]
    rfl
  · rw [run_default_two]
    rfl
  · rw [run_default_two]
    rfl

/-- C8: The previous-position variable starts at the sentinel origin, so the
first iteration takes the stall branch exactly when the Euclidean distance
from the origin to the first polled position is below `jam_dist` (in
particular a first position within `jam_dist` of the origin counts as a
stalled step); the embedded test agrees with the real square-root distance
comparison.  Concretely, on `[(0,0,0), (5,0,0)]` with the default
configuration, step 1 leaves the counter at 1 and step 2 resets it to
`jam_steps`, clears the flag and advances the frame index to 1. -/
theorem C8_sentinel_first_iteration (cfg : GenConfig) :
    (initState cfg).last_pos = sentinelPos ∧
    (∀ pos : Pos,
        ((jamBranch cfg pos (captureWrite (initState cfg))).i = (initState cfg).i
          ↔ isStalled cfg.jam_dist sentinelPos pos = true) ∧
        (isStalled cfg.jam_dist sentinelPos pos = true
          ↔ Real.sqrt ((distSq sentinelPos pos : ℚ) : ℝ) < (cfg.jam_dist : ℝ))) ∧
    (runLoop cfgDefault (initState cfgDefault)
        [sentinelPos]).steps_without_moving_left = 1 ∧
    (runLoop cfgDefault (initState cfgDefault)
        [sentinelPos, posFive]).steps_without_moving_left = cfgDefault.jam_steps ∧
    (runLoop cfgDefault (initState cfgDefault) [sentinelPos, posFive]).jammed
        = false ∧
    (runLoop cfgDefault (initState cfgDefault) [sentinelPos, posFive]).i = 1 := by
  refine ⟨rfl, ?_, ?_, ?_, ?_, ?_⟩
  · intro pos
    constructor
    · by_cases hst : isStalled cfg.jam_dist sentinelPos pos = true
      · simp only [jamBranch, captureWrite]
        rw [show isStalled cfg.jam_dist
            ({ initState cfg with
                writes := (initState cfg).writes ++ [(initState cfg).i] }
              : GenState).last_pos pos = true from hst]
        simp [hst]
      · have hst' : isStalled cfg.jam_dist sentinelPos pos = false := by
          simpa using hst
        simp only [jamBranch, captureWrite]
        rw [show isStalled cfg.jam_dist
            ({ initState cfg with
                writes := (initState cfg).writes ++ [(initState cfg).i] }
              : GenState).last_pos pos = false from hst']
        simp [hst']
    · exact isStalled_iff_sqrt cfg.jam_dist sentinelPos pos
  · rw [run_default_one]
    rfl
  · rw [run_default_far]
    rfl
  · rw [run_default_far]
    rfl
  · rw [run_default_far]
    rfl

/-- C9: `get_metadata` is defined with one parameter but called with two
arguments, so every run of the capture loop with at least one iteration
raises `TypeError` in its first iteration, at a point before the frame files
of index 0 are written — the state carried by the error still has an empty
write log. -/
theorem C9_metadata_call_arity_type_error (cfg : GenConfig) (pos : Pos)
    (ps : List Pos) :
    get_metadata_param_count = 1 ∧
    generate_images_metadata_arg_count = 2 ∧
    runLoopChecked cfg (initState cfg) (pos :: ps)
      = Except.error ("TypeError", initState cfg) ∧
    (initState cfg).writes = [] :=
  ⟨rfl, rfl, rfl, rfl⟩

/-- C10 counterexample: with `jam_steps = 0`, a stalled step indeed drives
the counter to -1 without recovery, but recovery is then triggered on the
very next moving step — not "never on any subsequent step". -/
theorem C10_counterexample :
    cfgZero.jam_steps = 0 ∧
    (runLoop cfgZero (initState cfgZero)
        [sentinelPos]).steps_without_moving_left = -1 ∧
    (runLoop cfgZero (initState cfgZero) [sentinelPos]).recoveries = 0 ∧
    (runLoop cfgZero (initState cfgZero) [sentinelPos, posFive]).recoveries
      ≠ 0 := by
  refine ⟨rfl, ?_, ?_, ?_⟩
  · rw [run_zero_one]
    rfl
  · rw [run_zero_one]
    rfl
  · rw [run_zero_two]
    decide

/-- C10 amended: with `jam_steps ≥ 1` the counter stays in
`[1, jam_steps + 1]` at every iteration boundary.  With `jam_steps = 0`, a
first stalled step drives the counter to -1 and the zero-equality check never
fires on stalled steps (the counter only keeps decreasing); however a moving
step resets the counter to 0, which fires the check and triggers recovery
with the counter left at 1. -/
theorem C10_amended_patience_behaviour (cfg : GenConfig) :
    (1 ≤ cfg.jam_steps → ∀ ps : List Pos,
        1 ≤ (runLoop cfg (initState cfg) ps).steps_without_moving_left ∧
        (runLoop cfg (initState cfg) ps).steps_without_moving_left
          ≤ cfg.jam_steps + 1) ∧
    (cfg.jam_steps = 0 → ∀ pos : Pos,
        isStalled cfg.jam_dist (initState cfg).last_pos pos = true →
        (loopStep cfg (initState cfg) pos).steps_without_moving_left = -1 ∧
        (loopStep cfg (initState cfg) pos).recoveries = 0) ∧
    (cfg.jam_steps = 0 → ∀ (s : GenState) (pos : Pos),
        isStalled cfg.jam_dist s.last_pos pos = true →
        s.steps_without_moving_left < 0 →
        (loopStep cfg s pos).steps_without_moving_left
            = s.steps_without_moving_left - 1 ∧
        (loopStep cfg s pos).recoveries = s.recoveries) ∧
    (cfg.jam_steps = 0 → ∀ (s : GenState) (pos : Pos),
        isStalled cfg.jam_dist s.last_pos pos = false →
        (loopStep cfg s pos).recoveries = s.recoveries + 1 ∧
        (loopStep cfg s pos).steps_without_moving_left = 1) := by
  refine ⟨?_, ?_, ?_, ?_⟩
  · intro h1 ps
    exact patience_bounds cfg h1 ps (initState cfg)
      (by show 1 ≤ cfg.jam_steps; omega)
      (by show cfg.jam_steps ≤ cfg.jam_steps + 1; omega)
  · intro hz pos hst
    rw [loopStep_stalled_no_recovery cfg (initState cfg) pos hst
      (by show cfg.jam_steps ≠ 1; omega)]
    constructor
    · show cfg.jam_steps - 1 = -1
      omega
    · rfl
  · intro hz s pos hst hneg
    rw [loopStep_stalled_no_recovery cfg s pos hst (by omega)]
    exact ⟨rfl, rfl⟩
  · intro hz s pos hst
    rw [loopStep_moving_zero cfg s pos hst hz]
    exact ⟨rfl, rfl⟩

/-- Witness for the amended C10: the bounds at the default configuration,
and all three `jam_steps = 0` behaviours at concrete states. -/
theorem C10_amended_witness :
    (1 ≤ (runLoop cfgDefault (initState cfgDefault)
          [sentinelPos]).steps_without_moving_left ∧
      (runLoop cfgDefault (initState cfgDefault)
          [sentinelPos]).steps_without_moving_left ≤ cfgDefault.jam_steps + 1) ∧
    ((loopStep cfgZero (initState cfgZero) sentinelPos).steps_without_moving_left
        = -1 ∧
      (loopStep cfgZero (initState cfgZero) sentinelPos).recoveries = 0) ∧
    ((loopStep cfgZero stateZeroOne sentinelPos).steps_without_moving_left
        = stateZeroOne.steps_without_moving_left - 1 ∧
      (loopStep cfgZero stateZeroOne sentinelPos).recoveries
        = stateZeroOne.recoveries) ∧
    ((loopStep cfgZero stateZeroOne posFive).recoveries
        = stateZeroOne.recoveries + 1 ∧
      (loopStep cfgZero stateZeroOne posFive).steps_without_moving_left = 1) :=
  ⟨(C10_amended_patience_behaviour cfgDefault).1 (by decide) [sentinelPos],
   (C10_amended_patience_behaviour cfgZero).2.1 rfl sentinelPos
     (by exact isStalled_refl _ pos_zero _),
   (C10_amended_patience_behaviour cfgZero).2.2.1 rfl stateZeroOne sentinelPos
     (by exact isStalled_refl _ pos_zero _) (by decide),
   (C10_amended_patience_behaviour cfgZero).2.2.2 rfl stateZeroOne posFive
     (by exact isStalled_far_zero)⟩
